import Mathlib

/-!
Shallow embedding of `DefaultServiceProvider.getService` from
`packages/core/src/common/service-provider.ts` (Eclipse Theia service layer),
together with proofs of the specification's claims about it.

The source method walks an ordered list of `ServiceContribution`s:

```
for (const contribution of this.serviceContributions) {
    try {
        let service: Proxyable | undefined;
        if (typeof contribution === 'function') {
            service = contribution(serviceId, params);
        } else if (typeof contribution === 'object' && !Array.isArray(contribution)) {
            service = contribution[serviceId]?.(params);
        } else {
            console.error(...); continue;
        }
        if (service) { return service as T; }
    } catch (error) { console.error(error); }
}
throw new Error(...);
```

JavaScript values are modelled by `JSValue` (with an explicit constructor for
promise handles, which are objects and hence always truthy); a contribution is
modelled by the `Contribution` sum that mirrors the `typeof` / `Array.isArray`
classification the code performs; `console.error` calls are modelled as an
accumulated list of `LogEvent`s; `throw` at the end is `Except.error`.
-/

namespace ServiceProviderSpec

/-- A JavaScript value, at the granularity `getService` observes: the code only
tests truthiness of results and returns them unchanged.  A pending promise is an
ordinary object (always truthy), modelled by its own constructor `promise`. -/
inductive JSValue where
  | undef
  | jsNull
  | bool (b : Bool)
  | num (n : Int)
  | str (s : String)
  | obj (id : Nat)
  | promise (id : Nat)
deriving DecidableEq, Repr

/-- JavaScript truthiness: `undefined`, `null`, `false`, `0`, `""` are falsy;
every object (including a pending promise handle) is truthy. -/
def truthy : JSValue → Bool
  | JSValue.undef => false
  | JSValue.jsNull => false
  | JSValue.bool b => b
  | JSValue.num n => n != 0
  | JSValue.str s => s != ""
  | JSValue.obj _ => true
  | JSValue.promise _ => true

/-- Result of invoking a contribution callable: it returns a value or throws. -/
inductive Outcome where
  | ret (v : JSValue)
  | thrown (e : JSValue)

/-- A `console.error` call made during the walk.  `malformedContribution`
carries the `typeof` string interpolated into the message of the defensive
branch; `caughtError` carries the caught thrown value. -/
inductive LogEvent where
  | malformedContribution (typeofStr : String)
  | caughtError (e : JSValue)

/-- A registered `ServiceContribution` as classified by the source:
`typeof contribution === 'function'` (function variant),
`typeof contribution === 'object' && !Array.isArray(contribution)` (record
variant, a string-keyed object of callables), an array (which is an object but
is excluded by `Array.isArray` — it may even carry string-keyed properties,
hence the ignored `entries` payload), or any other `typeof` (primitive). -/
inductive Contribution where
  | fn (f : String → JSValue → Outcome)
  | record (entries : List (String × (JSValue → Outcome)))
  | array (entries : List (String × (JSValue → Outcome)))
  | primitive (typeofStr : String)

/-- Property lookup `contribution[serviceId]` on a record contribution:
exact key equality, first matching key wins (JS object keys are unique). -/
def recordLookup : List (String × (JSValue → Outcome)) → String → Option (JSValue → Outcome)
  | [], _ => none
  | (k, g) :: rest, serviceId => if k = serviceId then some g else recordLookup rest serviceId

/-- One iteration of the loop body on a single contribution: yields
`(some v, logs)` when the body would `return v` (a truthy result), and
`(none, logs)` when the walk continues, with `logs` the `console.error`
calls the body made.

Branches map to the source lines:
* function variant: `service = contribution(serviceId, params)`;
* record variant: `service = contribution[serviceId]?.(params)` — an absent
  key yields `undefined` without a call;
* array / primitive: the defensive `else` logs
  `unexpected contribution type: ${typeof contribution}` and continues
  (`typeof` of an array is `"object"`);
* a throw inside the `try` is caught and logged: `console.error(error)`;
* `if (service) return service` is the truthiness test. -/
def runContribution (c : Contribution) (serviceId : String) (params : JSValue) :
    Option JSValue × List LogEvent :=
  match c with
  | Contribution.fn f =>
    match f serviceId params with
    | Outcome.ret v => (if truthy v then some v else none, [])
    | Outcome.thrown e => (none, [LogEvent.caughtError e])
  | Contribution.record entries =>
    match recordLookup entries serviceId with
    | some g =>
      match g params with
      | Outcome.ret v => (if truthy v then some v else none, [])
      | Outcome.thrown e => (none, [LogEvent.caughtError e])
    | none => (none, [])
  | Contribution.array _ => (none, [LogEvent.malformedContribution "object"])
  | Contribution.primitive t => (none, [LogEvent.malformedContribution t])

/-- The message of the terminal error:
`` throw new Error(`no service found for "${serviceId}"`) ``. -/
def notFoundMessage (serviceId : String) : String :=
  "no service found for \"" ++ serviceId ++ "\""

/-- The `for` loop of `getService` over the remaining contributions, returning
the outcome (`Except.ok` for `return service`, `Except.error` for the terminal
`throw`) together with the chronological list of `console.error` calls. -/
def getServiceLoop : List Contribution → String → JSValue → Except String JSValue × List LogEvent
  | [], serviceId, _ => (Except.error (notFoundMessage serviceId), [])
  | c :: rest, serviceId, params =>
    match runContribution c serviceId params with
    | (some v, logs) => (Except.ok v, logs)
    | (none, logs) =>
      let r := getServiceLoop rest serviceId params
      (r.1, logs ++ r.2)

/-- The dispatcher: owns the contribution list gathered at construction. -/
structure DefaultServiceProvider where
  serviceContributions : List Contribution

/-- `getService` as a state-passing method: the body reads
`this.serviceContributions` and never assigns to it, so the post-state is the
receiver unchanged. -/
def DefaultServiceProvider.getService (self : DefaultServiceProvider)
    (serviceId : String) (params : JSValue) :
    (Except String JSValue × List LogEvent) × DefaultServiceProvider :=
  (getServiceLoop self.serviceContributions serviceId params, self)

/-- The non-empty (truthy) result a contribution produces for a call, if any:
`some v` exactly when the loop body would `return v` at this contribution. -/
def produces (c : Contribution) (serviceId : String) (params : JSValue) : Option JSValue :=
  (runContribution c serviceId params).1

/-- The contribution's invocation throws for this call (and the `catch` block
would run). -/
def throwsOn (c : Contribution) (serviceId : String) (params : JSValue) : Bool :=
  match c with
  | Contribution.fn f =>
    match f serviceId params with
    | Outcome.thrown _ => true
    | _ => false
  | Contribution.record entries =>
    match recordLookup entries serviceId with
    | some g =>
      match g params with
      | Outcome.thrown _ => true
      | _ => false
    | none => false
  | _ => false

/-- The contribution falls into the defensive `else` branch: neither a
function nor a non-array object. -/
def isMalformed : Contribution → Bool
  | Contribution.array _ => true
  | Contribution.primitive _ => true
  | _ => false

/-- The `typeof` string the defensive branch would interpolate. -/
def typeofContribution : Contribution → String
  | Contribution.fn _ => "function"
  | Contribution.record _ => "object"
  | Contribution.array _ => "object"
  | Contribution.primitive t => t

/-- Example contribution used to instantiate closed instances of the claims:
always answers with the truthy string `"service-A"`. -/
def exContribA : Contribution :=
  Contribution.fn (fun _ _ => Outcome.ret (JSValue.str "service-A"))

/-- Example contribution: always answers with the truthy string `"service-B"`. -/
def exContribB : Contribution :=
  Contribution.fn (fun _ _ => Outcome.ret (JSValue.str "service-B"))

/-- Example contribution: always throws during invocation. -/
def exThrower : Contribution :=
  Contribution.fn (fun _ _ => Outcome.thrown (JSValue.str "boom"))

/-! ## Basic lemmas about one loop iteration -/

/-- A contribution that produces a truthy result makes no `console.error` call. -/
theorem runContribution_snd_of_produces (c : Contribution) (serviceId : String)
    (params : JSValue) (v : JSValue) (h : produces c serviceId params = some v) :
    runContribution c serviceId params = (some v, []) := by
  cases c with
  | fn f =>
    cases hf : f serviceId params with
    | ret w =>
      by_cases ht : truthy w = true
      · simp [produces, runContribution, hf, ht] at h
        subst h
        simp [runContribution, hf, ht]
      · simp [produces, runContribution, hf, ht] at h
    | thrown e => simp [produces, runContribution, hf] at h
  | record entries =>
    cases hl : recordLookup entries serviceId with
    | some g =>
      cases hg : g params with
      | ret w =>
        by_cases ht : truthy w = true
        · simp [produces, runContribution, hl, hg, ht] at h
          subst h
          simp [runContribution, hl, hg, ht]
        · simp [produces, runContribution, hl, hg, ht] at h
      | thrown e => simp [produces, runContribution, hl, hg] at h
    | none => simp [produces, runContribution, hl] at h
  | array entries => simp [produces, runContribution] at h
  | primitive t => simp [produces, runContribution] at h

/-- A produced truthy result is the immediate, log-free outcome of the walk:
the head contribution short-circuits and the tail is never consulted. -/
theorem getServiceLoop_cons_hit (c : Contribution) (l : List Contribution)
    (serviceId : String) (params : JSValue) (v : JSValue)
    (h : produces c serviceId params = some v) :
    getServiceLoop (c :: l) serviceId params = (Except.ok v, []) := by
  have hr := runContribution_snd_of_produces c serviceId params v h
  simp [getServiceLoop, hr]

/-- A contribution producing no truthy result is skipped: the walk continues
on the tail, prepending whatever this contribution logged. -/
theorem getServiceLoop_cons_skip (c : Contribution) (l : List Contribution)
    (serviceId : String) (params : JSValue)
    (h : produces c serviceId params = none) :
    getServiceLoop (c :: l) serviceId params =
      ((getServiceLoop l serviceId params).1,
        (runContribution c serviceId params).2 ++ (getServiceLoop l serviceId params).2) := by
  unfold produces at h
  cases hr : runContribution c serviceId params with
  | mk o logs =>
    rw [hr] at h
    simp at h
    subst h
    simp [getServiceLoop, hr]

/-- The result (first component) of the walk on `c :: l`, characterised by
what `c` produces. -/
theorem getServiceLoop_cons_fst (c : Contribution) (l : List Contribution)
    (serviceId : String) (params : JSValue) :
    (getServiceLoop (c :: l) serviceId params).1 =
      match produces c serviceId params with
      | some v => Except.ok v
      | none => (getServiceLoop l serviceId params).1 := by
  cases hp : produces c serviceId params with
  | some v => rw [getServiceLoop_cons_hit c l serviceId params v hp]
  | none => rw [getServiceLoop_cons_skip c l serviceId params hp]

/-- Walking `pre ++ l` is a function of `pre` and the walk of `l`: whatever
happens past `pre` only depends on the walk of the rest of the list. -/
theorem getServiceLoop_append_congr (pre l1 l2 : List Contribution)
    (serviceId : String) (params : JSValue)
    (h : getServiceLoop l1 serviceId params = getServiceLoop l2 serviceId params) :
    getServiceLoop (pre ++ l1) serviceId params = getServiceLoop (pre ++ l2) serviceId params := by
  induction pre with
  | nil => simpa using h
  | cons c pre ih =>
    cases hp : produces c serviceId params with
    | some v =>
      rw [List.cons_append, List.cons_append,
        getServiceLoop_cons_hit c (pre ++ l1) serviceId params v hp,
        getServiceLoop_cons_hit c (pre ++ l2) serviceId params v hp]
    | none =>
      rw [List.cons_append, List.cons_append,
        getServiceLoop_cons_skip c (pre ++ l1) serviceId params hp,
        getServiceLoop_cons_skip c (pre ++ l2) serviceId params hp, ih]

/-- Result congruence: if two tails give the same result, so do the walks with
a common prefix prepended (the logs of the tails may differ). -/
theorem getServiceLoop_append_congr_fst (pre l1 l2 : List Contribution)
    (serviceId : String) (params : JSValue)
    (h : (getServiceLoop l1 serviceId params).1 = (getServiceLoop l2 serviceId params).1) :
    (getServiceLoop (pre ++ l1) serviceId params).1 =
      (getServiceLoop (pre ++ l2) serviceId params).1 := by
  induction pre with
  | nil => simpa using h
  | cons c pre ih =>
    cases hp : produces c serviceId params with
    | some v =>
      rw [List.cons_append, List.cons_append,
        getServiceLoop_cons_hit c (pre ++ l1) serviceId params v hp,
        getServiceLoop_cons_hit c (pre ++ l2) serviceId params v hp]
    | none =>
      rw [List.cons_append, List.cons_append,
        getServiceLoop_cons_skip c (pre ++ l1) serviceId params hp,
        getServiceLoop_cons_skip c (pre ++ l2) serviceId params hp]
      simpa using ih

/-- If every contribution of a prefix produces nothing, the result of the walk
is the result of walking the rest. -/
theorem getServiceLoop_append_fst_of_skips (pre l : List Contribution)
    (serviceId : String) (params : JSValue)
    (h : ∀ c ∈ pre, produces c serviceId params = none) :
    (getServiceLoop (pre ++ l) serviceId params).1 = (getServiceLoop l serviceId params).1 := by
  induction pre with
  | nil => simp
  | cons c pre ih =>
    rw [List.cons_append, getServiceLoop_cons_skip c (pre ++ l) serviceId params
      (h c (List.mem_cons_self c pre))]
    exact ih fun d hd => h d (List.mem_cons_of_mem c hd)

/-- The only error the walk can surface is the terminal not-found error:
per-contribution failures never propagate to the caller. -/
theorem getServiceLoop_error_eq (l : List Contribution) (serviceId : String)
    (params : JSValue) (e : String)
    (h : (getServiceLoop l serviceId params).1 = Except.error e) :
    e = notFoundMessage serviceId := by
  induction l with
  | nil =>
    simp [getServiceLoop] at h
    exact h.symm
  | cons c rest ih =>
    rw [getServiceLoop_cons_fst] at h
    cases hp : produces c serviceId params with
    | some v => rw [hp] at h; simp at h
    | none => rw [hp] at h; exact ih h

/-- What `produces` returns is always truthy. -/
theorem produces_truthy (c : Contribution) (serviceId : String) (params : JSValue)
    (v : JSValue) (h : produces c serviceId params = some v) : truthy v = true := by
  cases c with
  | fn f =>
    cases hf : f serviceId params with
    | ret w =>
      by_cases ht : truthy w = true
      · simp [produces, runContribution, hf, ht] at h
        rwa [← h]
      · simp [produces, runContribution, hf, ht] at h
    | thrown e => simp [produces, runContribution, hf] at h
  | record entries =>
    cases hl : recordLookup entries serviceId with
    | some g =>
      cases hg : g params with
      | ret w =>
        by_cases ht : truthy w = true
        · simp [produces, runContribution, hl, hg, ht] at h
          rwa [← h]
        · simp [produces, runContribution, hl, hg, ht] at h
      | thrown e => simp [produces, runContribution, hl, hg] at h
    | none => simp [produces, runContribution, hl] at h
  | array entries => simp [produces, runContribution] at h
  | primitive t => simp [produces, runContribution] at h

/-- A contribution whose invocation throws produces no result. -/
theorem produces_none_of_throwsOn (c : Contribution) (serviceId : String) (params : JSValue)
    (h : throwsOn c serviceId params = true) : produces c serviceId params = none := by
  cases c with
  | fn f =>
    cases hf : f serviceId params with
    | ret w => simp [throwsOn, hf] at h
    | thrown e => simp [produces, runContribution, hf]
  | record entries =>
    cases hl : recordLookup entries serviceId with
    | some g =>
      cases hg : g params with
      | ret w => simp [throwsOn, hl, hg] at h
      | thrown e => simp [produces, runContribution, hl, hg]
    | none => simp [throwsOn, hl] at h
  | array entries => simp [throwsOn] at h
  | primitive t => simp [throwsOn] at h

/-! ## The claims -/

/-- Claim C1: for every contribution list and every `serviceId` for which at
least one contribution produces a non-empty (truthy) result, `getService`
returns the value produced by the first such contribution in list order and
consults no contribution after it, regardless of the behavior of later
contributions (including ones that would throw): the whole outcome, logs
included, is unchanged under replacing everything after that contribution. -/
theorem getService_first_nonempty_short_circuits
    (pre : List Contribution) (c : Contribution) (post post2 : List Contribution)
    (serviceId : String) (params : JSValue) (v : JSValue)
    (hpre : ∀ d ∈ pre, produces d serviceId params = none)
    (hc : produces c serviceId params = some v) :
    (getServiceLoop (pre ++ c :: post) serviceId params).1 = Except.ok v ∧
    getServiceLoop (pre ++ c :: post) serviceId params =
      getServiceLoop (pre ++ c :: post2) serviceId params := by
  constructor
  · rw [getServiceLoop_append_fst_of_skips pre (c :: post) serviceId params hpre,
      getServiceLoop_cons_hit c post serviceId params v hc]
  · exact getServiceLoop_append_congr pre (c :: post) (c :: post2) serviceId params
      (by rw [getServiceLoop_cons_hit c post serviceId params v hc,
        getServiceLoop_cons_hit c post2 serviceId params v hc])

/-- Closed instance of C1: with no preceding contributions, a contribution
answering `"service-A"` wins and the walk is unchanged when the trailing
throwing contribution is removed. -/
theorem getService_first_nonempty_short_circuits_witness :
    (getServiceLoop ([] ++ exContribA :: [exThrower]) "svc" JSValue.undef).1 =
      Except.ok (JSValue.str "service-A") ∧
    getServiceLoop ([] ++ exContribA :: [exThrower]) "svc" JSValue.undef =
      getServiceLoop ([] ++ exContribA :: []) "svc" JSValue.undef :=
  getService_first_nonempty_short_circuits [] exContribA [exThrower] [] "svc" JSValue.undef
    (JSValue.str "service-A") (by simp) (by rfl)

/-- Claim C2: `getService` fails with the not-found error naming the requested
`serviceId` if and only if no contribution produces a non-empty result for
this `(serviceId, params)` call. -/
theorem getService_not_found_iff (l : List Contribution) (serviceId : String)
    (params : JSValue) :
    (getServiceLoop l serviceId params).1 = Except.error (notFoundMessage serviceId) ↔
      ∀ c ∈ l, produces c serviceId params = none := by
  induction l with
  | nil => simp [getServiceLoop]
  | cons c rest ih =>
    rw [getServiceLoop_cons_fst]
    cases hp : produces c serviceId params with
    | some v => simp [hp]
    | none => rw [ih]; simp [hp]

/-- Claim C5: between two contributions that would both produce a non-empty
result, list order alone decides: `[A, B]` yields `A`'s value and `[B, A]`
yields `B`'s value. -/
theorem getService_order_determines (a b : Contribution) (serviceId : String)
    (params : JSValue) (va vb : JSValue)
    (ha : produces a serviceId params = some va)
    (hb : produces b serviceId params = some vb) :
    getServiceLoop [a, b] serviceId params = (Except.ok va, []) ∧
    getServiceLoop [b, a] serviceId params = (Except.ok vb, []) :=
  ⟨getServiceLoop_cons_hit a [b] serviceId params va ha,
    getServiceLoop_cons_hit b [a] serviceId params vb hb⟩

/-- Closed instance of C5: two always-answering contributions, in both
orders. -/
theorem getService_order_determines_witness :
    getServiceLoop [exContribA, exContribB] "svc" JSValue.undef =
      (Except.ok (JSValue.str "service-A"), []) ∧
    getServiceLoop [exContribB, exContribA] "svc" JSValue.undef =
      (Except.ok (JSValue.str "service-B"), []) :=
  getService_order_determines exContribA exContribB "svc" JSValue.undef
    (JSValue.str "service-A") (JSValue.str "service-B") (by rfl) (by rfl)

/-- Claim C8: `getService` leaves the dispatcher's state unchanged — the
post-state is the receiver itself, its `serviceContributions` list is
identical, and an identical repeated lookup on the post-state returns the
same result. -/
theorem getService_leaves_state_unchanged (self : DefaultServiceProvider)
    (serviceId : String) (params : JSValue) :
    (self.getService serviceId params).2 = self ∧
    (self.getService serviceId params).2.serviceContributions = self.serviceContributions ∧
    ((self.getService serviceId params).2).getService serviceId params =
      self.getService serviceId params :=
  ⟨rfl, rfl, rfl⟩

/-- Claim C3: a contribution that throws during invocation neither propagates
the throw to the caller nor prevents later contributions from being consulted:
the result equals the result of the walk with the thrower removed, equals the
result of the walk with the thrower replaced by an empty-returning
contribution, and the only error the caller can see is the terminal not-found
error. -/
theorem getService_throwing_contribution_skipped
    (pre : List Contribution) (c : Contribution) (post : List Contribution)
    (serviceId : String) (params : JSValue)
    (hthrow : throwsOn c serviceId params = true) :
    (getServiceLoop (pre ++ c :: post) serviceId params).1 =
      (getServiceLoop (pre ++ post) serviceId params).1 ∧
    (getServiceLoop (pre ++ c :: post) serviceId params).1 =
      (getServiceLoop
        (pre ++ Contribution.fn (fun _ _ => Outcome.ret JSValue.undef) :: post)
        serviceId params).1 ∧
    ∀ e, (getServiceLoop (pre ++ c :: post) serviceId params).1 = Except.error e →
      e = notFoundMessage serviceId := by
  have hp := produces_none_of_throwsOn c serviceId params hthrow
  have hskip : (getServiceLoop (c :: post) serviceId params).1 =
      (getServiceLoop post serviceId params).1 := by
    rw [getServiceLoop_cons_skip c post serviceId params hp]
  have hempty : (getServiceLoop
      (Contribution.fn (fun _ _ => Outcome.ret JSValue.undef) :: post) serviceId params).1 =
      (getServiceLoop post serviceId params).1 := by
    rw [getServiceLoop_cons_skip _ post serviceId params (by rfl)]
  refine ⟨getServiceLoop_append_congr_fst pre (c :: post) post serviceId params hskip,
    getServiceLoop_append_congr_fst pre (c :: post) _ serviceId params
      (hskip.trans hempty.symm),
    fun e he => getServiceLoop_error_eq (pre ++ c :: post) serviceId params e he⟩

/-- Closed instance of C3: a throwing contribution ahead of an answering one
is skipped and surfaces nothing. -/
theorem getService_throwing_contribution_skipped_witness :
    (getServiceLoop ([] ++ exThrower :: [exContribA]) "svc" JSValue.undef).1 =
      (getServiceLoop ([] ++ [exContribA]) "svc" JSValue.undef).1 ∧
    (getServiceLoop ([] ++ exThrower :: [exContribA]) "svc" JSValue.undef).1 =
      (getServiceLoop
        ([] ++ Contribution.fn (fun _ _ => Outcome.ret JSValue.undef) :: [exContribA])
        "svc" JSValue.undef).1 ∧
    ∀ e, (getServiceLoop ([] ++ exThrower :: [exContribA]) "svc" JSValue.undef).1 =
      Except.error e → e = notFoundMessage "svc" :=
  getService_throwing_contribution_skipped [] exThrower [exContribA] "svc" JSValue.undef
    (by rfl)

/-- Claim C4: a record-variant contribution matches only on exact key lookup
of `serviceId`: if the key is present, the walk step behaves exactly like a
function contribution invoking the associated callable with `params`; if the
key is absent, the step is a no-op and the walk continues with the rest of
the list. -/
theorem getService_record_exact_key (entries : List (String × (JSValue → Outcome)))
    (rest : List Contribution) (serviceId : String) (params : JSValue) :
    getServiceLoop (Contribution.record entries :: rest) serviceId params =
      match recordLookup entries serviceId with
      | some g => getServiceLoop (Contribution.fn (fun _ q => g q) :: rest) serviceId params
      | none => getServiceLoop rest serviceId params := by
  cases hl : recordLookup entries serviceId with
  | some g =>
    have hrun : runContribution (Contribution.record entries) serviceId params =
        runContribution (Contribution.fn (fun _ q => g q)) serviceId params := by
      simp [runContribution, hl]
    simp [getServiceLoop, hrun]
  | none =>
    have hrun : runContribution (Contribution.record entries) serviceId params =
        (none, []) := by
      simp [runContribution, hl]
    simp [getServiceLoop, hrun]

/-- Claim C6: a malformed contribution (neither function nor plain mapping —
an array or a primitive) is logged with the defensive message, skipped, and
the walk continues: the overall result is that of the list without it. -/
theorem getService_malformed_skipped
    (pre : List Contribution) (c : Contribution) (post : List Contribution)
    (serviceId : String) (params : JSValue)
    (hmal : isMalformed c = true) :
    getServiceLoop (c :: post) serviceId params =
      ((getServiceLoop post serviceId params).1,
        LogEvent.malformedContribution (typeofContribution c) ::
          (getServiceLoop post serviceId params).2) ∧
    (getServiceLoop (pre ++ c :: post) serviceId params).1 =
      (getServiceLoop (pre ++ post) serviceId params).1 := by
  have hp : produces c serviceId params = none := by
    cases c with
    | fn f => simp [isMalformed] at hmal
    | record entries => simp [isMalformed] at hmal
    | array entries => rfl
    | primitive t => rfl
  have hlog : (runContribution c serviceId params).2 =
      [LogEvent.malformedContribution (typeofContribution c)] := by
    cases c with
    | fn f => simp [isMalformed] at hmal
    | record entries => simp [isMalformed] at hmal
    | array entries => rfl
    | primitive t => rfl
  constructor
  · rw [getServiceLoop_cons_skip c post serviceId params hp, hlog]
    rfl
  · exact getServiceLoop_append_congr_fst pre (c :: post) post serviceId params
      (by rw [getServiceLoop_cons_skip c post serviceId params hp])

/-- Closed instance of C6: a numeric registration is logged and skipped, and
does not change the result. -/
theorem getService_malformed_skipped_witness :
    getServiceLoop (Contribution.primitive "number" :: [exContribA]) "svc" JSValue.undef =
      ((getServiceLoop [exContribA] "svc" JSValue.undef).1,
        LogEvent.malformedContribution (typeofContribution (Contribution.primitive "number")) ::
          (getServiceLoop [exContribA] "svc" JSValue.undef).2) ∧
    (getServiceLoop ([] ++ Contribution.primitive "number" :: [exContribA]) "svc"
      JSValue.undef).1 =
      (getServiceLoop ([] ++ [exContribA]) "svc" JSValue.undef).1 :=
  getService_malformed_skipped [] (Contribution.primitive "number") [exContribA] "svc"
    JSValue.undef (by rfl)

/-- Claim C7: `getService` only tests truthiness and never awaits: a
contribution returning an unresolved promise handle (an object, hence truthy)
short-circuits the walk and the handle itself is returned, unresolved, as the
service. -/
theorem getService_unresolved_promise_short_circuits
    (f : String → JSValue → Outcome) (rest : List Contribution)
    (serviceId : String) (params : JSValue) (id : Nat)
    (h : f serviceId params = Outcome.ret (JSValue.promise id)) :
    truthy (JSValue.promise id) = true ∧
    getServiceLoop (Contribution.fn f :: rest) serviceId params =
      (Except.ok (JSValue.promise id), []) := by
  refine ⟨rfl, getServiceLoop_cons_hit _ rest serviceId params _ ?_⟩
  simp [produces, runContribution, h, truthy]

/-- Closed instance of C7: a contribution returning a pending promise handle
short-circuits ahead of an answering contribution. -/
theorem getService_unresolved_promise_short_circuits_witness :
    truthy (JSValue.promise 0) = true ∧
    getServiceLoop
      (Contribution.fn (fun _ _ => Outcome.ret (JSValue.promise 0)) :: [exContribA])
      "svc" JSValue.undef = (Except.ok (JSValue.promise 0), []) :=
  getService_unresolved_promise_short_circuits (fun _ _ => Outcome.ret (JSValue.promise 0))
    [exContribA] "svc" JSValue.undef 0 (by rfl)

/-- Claim C9: a successful `getService` result is never empty: whatever it
returns with `Except.ok` is truthy, in particular never `undefined`. -/
theorem getService_ok_implies_truthy (l : List Contribution) (serviceId : String)
    (params : JSValue) (v : JSValue)
    (h : (getServiceLoop l serviceId params).1 = Except.ok v) :
    truthy v = true ∧ v ≠ JSValue.undef := by
  induction l with
  | nil => simp [getServiceLoop] at h
  | cons c rest ih =>
    rw [getServiceLoop_cons_fst] at h
    cases hp : produces c serviceId params with
    | some w =>
      rw [hp] at h
      simp at h
      subst h
      have ht := produces_truthy c serviceId params w hp
      exact ⟨ht, fun hv => by rw [hv] at ht; simp [truthy] at ht⟩
    | none =>
      rw [hp] at h
      exact ih h

/-- Closed instance of C9: the value returned for the example contribution is
truthy and not `undefined`. -/
theorem getService_ok_implies_truthy_witness :
    truthy (JSValue.str "service-A") = true ∧ JSValue.str "service-A" ≠ JSValue.undef :=
  getService_ok_implies_truthy [exContribA] "svc" JSValue.undef (JSValue.str "service-A")
    (by rfl)

/-- Claim C10: an array contribution is classified by the defensive branch
(`typeof` is `"object"` but `Array.isArray` excludes it from the record
branch): whatever string-keyed properties it carries are never consulted, its
log entry is the defensive one, and the walk continues with the rest. -/
theorem getService_array_never_record (entries : List (String × (JSValue → Outcome)))
    (rest : List Contribution) (serviceId : String) (params : JSValue) :
    getServiceLoop (Contribution.array entries :: rest) serviceId params =
      ((getServiceLoop rest serviceId params).1,
        LogEvent.malformedContribution "object" :: (getServiceLoop rest serviceId params).2) := by
  rw [getServiceLoop_cons_skip (Contribution.array entries) rest serviceId params rfl]
  rfl

end ServiceProviderSpec
